import Mathlib

/-!
# Verification of the haxball-game core

Shallow embedding of the repository's core code:
* `src/physics.ts` (class `Physics`): vector arithmetic, player/ball
  integration, wall handling, kicking, goal detection, player collisions.
* `src/game.ts` (class `Game`): the per-tick `update` step, goal handling,
  `resetPositions`, the inbound `player-update` handler.
* `src/network.ts` (class `Network`): the room-id normalization performed by
  `joinRoom`.

JavaScript numbers are modelled as real numbers (`ℝ`); `Math.sqrt` is
`Real.sqrt`.  Stateful methods that mutate their arguments are modelled as
functions returning the updated values.  Strings are modelled as `List Char`
with character-level implementations of the JS string operations used by the
source (`toUpperCase`, `trim`, `startsWith`, one-occurrence `replace`).
-/

namespace Haxball

/-- `Vector2` from `src/types.ts`. -/
structure Vector2 where
  x : ℝ
  y : ℝ

/-- The `'red' | 'blue'` team literal type from `src/types.ts`. -/
inductive Team where
  | red
  | blue
deriving DecidableEq

/-- `Player` from `src/types.ts`.  `kickCooldown` is an integer frame
counter (the source only ever stores integers in it). -/
structure Player where
  id : String
  position : Vector2
  velocity : Vector2
  team : Team
  name : String
  isKicking : Bool
  kickCooldown : ℤ

/-- `Ball` from `src/types.ts`. -/
structure Ball where
  position : Vector2
  velocity : Vector2
  radius : ℝ

/-- The `score` field of `GameState` from `src/types.ts`. -/
structure Score where
  red : ℕ
  blue : ℕ

/-- `GameState` from `src/types.ts`; the `Map<string, Player>` is modelled
as a list of players in insertion order (player ids are unique keys). -/
structure GameState where
  players : List Player
  ball : Ball
  score : Score
  isPlaying : Bool
  countdown : ℕ

/-- The four movement booleans of `InputState` from `src/types.ts` (the
`kick` flag is edge-triggered separately and never read by `updatePlayer`). -/
structure InputState where
  up : Bool
  down : Bool
  left : Bool
  right : Bool

/-- `GameConfig` from `src/types.ts`. -/
structure GameConfig where
  fieldWidth : ℝ
  fieldHeight : ℝ
  playerRadius : ℝ
  ballRadius : ℝ
  playerSpeed : ℝ
  kickForce : ℝ
  friction : ℝ
  goalWidth : ℝ

/-- The concrete configuration built in the `Game` constructor
(`src/game.ts`). -/
def config : GameConfig :=
  { fieldWidth := 1000
    fieldHeight := 600
    playerRadius := 25
    ballRadius := 15
    playerSpeed := 5
    kickForce := 15
    friction := 0.95
    goalWidth := 150 }

namespace Physics

noncomputable section

/-- `Physics.add`. -/
def add (a b : Vector2) : Vector2 := ⟨a.x + b.x, a.y + b.y⟩

/-- `Physics.subtract`. -/
def subtract (a b : Vector2) : Vector2 := ⟨a.x - b.x, a.y - b.y⟩

/-- `Physics.multiply`. -/
def multiply (v : Vector2) (s : ℝ) : Vector2 := ⟨v.x * s, v.y * s⟩

/-- `Physics.magnitude`. -/
def magnitude (v : Vector2) : ℝ := Real.sqrt (v.x * v.x + v.y * v.y)

/-- `Physics.normalize`: returns the zero vector when the magnitude is 0. -/
def normalize (v : Vector2) : Vector2 :=
  if magnitude v = 0 then ⟨0, 0⟩ else ⟨v.x / magnitude v, v.y / magnitude v⟩

/-- `Physics.distance`. -/
def distance (a b : Vector2) : ℝ := magnitude (subtract a b)

/-- `Physics.dot`. -/
def dot (a b : Vector2) : ℝ := a.x * b.x + a.y * b.y

/-- `Physics.updatePlayer`: acceleration from the four direction booleans,
normalized, applied at `0.5 × playerSpeed`; speed clamped to `playerSpeed`;
friction; position integration; clamping to the field minus the player
radius; cooldown decrement. -/
def updatePlayer (cfg : GameConfig) (p : Player) (input : InputState) : Player :=
  let accX : ℝ := (if input.left then -1 else 0) + (if input.right then 1 else 0)
  let accY : ℝ := (if input.up then -1 else 0) + (if input.down then 1 else 0)
  let nrm := normalize ⟨accX, accY⟩
  let v1 : Vector2 :=
    ⟨p.velocity.x + nrm.x * cfg.playerSpeed * 0.5,
     p.velocity.y + nrm.y * cfg.playerSpeed * 0.5⟩
  let v2 := if magnitude v1 > cfg.playerSpeed then multiply (normalize v1) cfg.playerSpeed else v1
  let v3 : Vector2 := ⟨v2.x * cfg.friction, v2.y * cfg.friction⟩
  let px := p.position.x + v3.x
  let py := p.position.y + v3.y
  { p with
    position :=
      ⟨max cfg.playerRadius (min (cfg.fieldWidth - cfg.playerRadius) px),
       max cfg.playerRadius (min (cfg.fieldHeight - cfg.playerRadius) py)⟩
    velocity := v3
    kickCooldown := if p.kickCooldown > 0 then p.kickCooldown - 1 else p.kickCooldown }

/-- The `goalTop` value recomputed inside `updateBall` and `checkGoal`. -/
def goalTop (cfg : GameConfig) : ℝ := (cfg.fieldHeight - cfg.goalWidth) / 2

/-- The `goalBottom` value recomputed inside `updateBall` and `checkGoal`. -/
def goalBottom (cfg : GameConfig) : ℝ := (cfg.fieldHeight + cfg.goalWidth) / 2

/-- First half of `Physics.updateBall`: position integration, friction
(`× 0.985`), and the snap of very slow velocities (magnitude `< 0.1`) to
zero. -/
def ballIntegrate (b : Ball) : Ball :=
  let px := b.position.x + b.velocity.x
  let py := b.position.y + b.velocity.y
  let vx := b.velocity.x * 0.985
  let vy := b.velocity.y * 0.985
  { b with
    position := ⟨px, py⟩
    velocity := if magnitude ⟨vx, vy⟩ < 0.1 then ⟨0, 0⟩ else ⟨vx, vy⟩ }

/-- The "Left wall" block of `Physics.updateBall`: no-op inside the goal
band, otherwise clamp to the wall and reflect `velocity.x` by `−0.8`. -/
def wallLeft (cfg : GameConfig) (b : Ball) : Ball :=
  if b.position.x - b.radius < 0 then
    if goalTop cfg < b.position.y ∧ b.position.y < goalBottom cfg then b
    else { b with
           position := ⟨b.radius, b.position.y⟩
           velocity := ⟨b.velocity.x * (-0.8), b.velocity.y⟩ }
  else b

/-- The "Right wall" block of `Physics.updateBall`. -/
def wallRight (cfg : GameConfig) (b : Ball) : Ball :=
  if b.position.x + b.radius > cfg.fieldWidth then
    if goalTop cfg < b.position.y ∧ b.position.y < goalBottom cfg then b
    else { b with
           position := ⟨cfg.fieldWidth - b.radius, b.position.y⟩
           velocity := ⟨b.velocity.x * (-0.8), b.velocity.y⟩ }
  else b

/-- The "Top wall" block of `Physics.updateBall`. -/
def wallTop (b : Ball) : Ball :=
  if b.position.y - b.radius < 0 then
    { b with
      position := ⟨b.position.x, b.radius⟩
      velocity := ⟨b.velocity.x, b.velocity.y * (-0.8)⟩ }
  else b

/-- The "Bottom wall" block of `Physics.updateBall`. -/
def wallBottom (cfg : GameConfig) (b : Ball) : Ball :=
  if b.position.y + b.radius > cfg.fieldHeight then
    { b with
      position := ⟨b.position.x, cfg.fieldHeight - b.radius⟩
      velocity := ⟨b.velocity.x, b.velocity.y * (-0.8)⟩ }
  else b

/-- `Physics.updateBall`: integration/friction/snap followed by the four
wall blocks in source order (left, right, top, bottom). -/
def updateBall (cfg : GameConfig) (b : Ball) : Ball :=
  wallBottom cfg (wallTop (wallRight cfg (wallLeft cfg (ballIntegrate b))))

/-- `Physics.handlePlayerBallCollision`.  The source mutates only the ball
(and returns a boolean its caller in `Game.update` ignores), so it is
modelled as returning the updated ball. -/
def handlePlayerBallCollision (cfg : GameConfig) (p : Player) (b : Ball) : Ball :=
  let dist := distance p.position b.position
  let minDist := cfg.playerRadius + b.radius
  if dist < minDist then
    let nrm := normalize (subtract b.position p.position)
    let overlap := minDist - dist
    let bp : Vector2 :=
      ⟨b.position.x + nrm.x * (overlap + 1), b.position.y + nrm.y * (overlap + 1)⟩
    let bv : Vector2 :=
      if magnitude p.velocity > 0.3 then
        ⟨b.velocity.x * 0.7 + p.velocity.x * 0.4, b.velocity.y * 0.7 + p.velocity.y * 0.4⟩
      else
        ⟨b.velocity.x + nrm.x * 0.5, b.velocity.y + nrm.y * 0.5⟩
    { b with position := bp, velocity := bv }
  else b

/-- `Physics.kick`: returns the boolean result together with the updated
player and ball (the `setTimeout` that later clears `isKicking` is an
external timer and not part of the synchronous effect). -/
def kick (cfg : GameConfig) (p : Player) (b : Ball) : Bool × Player × Ball :=
  if p.kickCooldown > 0 then (false, p, b)
  else
    let dist := distance p.position b.position
    let kickRange := cfg.playerRadius + b.radius + 25
    if dist < kickRange then
      let dir := normalize (subtract b.position p.position)
      (true,
       { p with kickCooldown := 20, isKicking := true },
       { b with
         velocity :=
           ⟨b.velocity.x + dir.x * cfg.kickForce, b.velocity.y + dir.y * cfg.kickForce⟩ })
    else (false, p, b)

/-- `Physics.kickWithExtendedRange`: range tolerance `+60`, no cooldown
check, sets `kickCooldown := 20`, leaves `isKicking` alone. -/
def kickWithExtendedRange (cfg : GameConfig) (p : Player) (b : Ball) : Bool × Player × Ball :=
  let dist := distance p.position b.position
  let kickRange := cfg.playerRadius + b.radius + 60
  if dist < kickRange then
    let dir := normalize (subtract b.position p.position)
    (true,
     { p with kickCooldown := 20 },
     { b with
       velocity :=
         ⟨b.velocity.x + dir.x * cfg.kickForce, b.velocity.y + dir.y * cfg.kickForce⟩ })
  else (false, p, b)

/-- `Physics.checkGoal`: a pure query returning the scoring team, if any. -/
def checkGoal (cfg : GameConfig) (b : Ball) : Option Team :=
  if b.position.x - b.radius < 0 ∧
     goalTop cfg < b.position.y ∧ b.position.y < goalBottom cfg then some Team.blue
  else if b.position.x + b.radius > cfg.fieldWidth ∧
          goalTop cfg < b.position.y ∧ b.position.y < goalBottom cfg then some Team.red
  else none

/-- `Physics.handlePlayerCollision`: mutates both players, modelled as
returning the updated pair. -/
def handlePlayerCollision (cfg : GameConfig) (p1 p2 : Player) : Player × Player :=
  let dist := distance p1.position p2.position
  let minDist := cfg.playerRadius * 2
  if dist < minDist ∧ dist > 0 then
    let nrm := normalize (subtract p2.position p1.position)
    let overlap := minDist - dist
    let q1pos : Vector2 :=
      ⟨p1.position.x - nrm.x * overlap * 0.5, p1.position.y - nrm.y * overlap * 0.5⟩
    let q2pos : Vector2 :=
      ⟨p2.position.x + nrm.x * overlap * 0.5, p2.position.y + nrm.y * overlap * 0.5⟩
    let van := dot (subtract p1.velocity p2.velocity) nrm
    if van > 0 then
      ({ p1 with
         position := q1pos
         velocity := ⟨p1.velocity.x - van * nrm.x * 0.5, p1.velocity.y - van * nrm.y * 0.5⟩ },
       { p2 with
         position := q2pos
         velocity := ⟨p2.velocity.x + van * nrm.x * 0.5, p2.velocity.y + van * nrm.y * 0.5⟩ })
    else
      ({ p1 with position := q1pos }, { p2 with position := q2pos })
  else (p1, p2)

end

end Physics

namespace Game

noncomputable section

/-- `Game.createBall` (`src/game.ts`): ball at field center with zero
velocity and the configured radius. -/
def createBall (cfg : GameConfig) : Ball :=
  { position := ⟨cfg.fieldWidth / 2, cfg.fieldHeight / 2⟩
    velocity := ⟨0, 0⟩
    radius := cfg.ballRadius }

/-- The kickoff position `Game.resetPositions` assigns to the `idx`-th
player of a team (`redIndex`/`blueIndex` in the source). -/
def resetPosition (cfg : GameConfig) (team : Team) (idx : ℕ) : Vector2 :=
  let yPos : ℝ :=
    cfg.fieldHeight / 2 +
      (if idx < 2 then (-60 : ℝ) else 60) * (if idx % 2 = 0 then (1 : ℝ) else -1) +
      ((idx / 2 : ℕ) * 100 - 50)
  match team with
  | Team.red => ⟨150 + (idx % 2 : ℕ) * 80, yPos⟩
  | Team.blue => ⟨cfg.fieldWidth - 150 - (idx % 2 : ℕ) * 80, yPos⟩

/-- The `players.forEach` loop of `Game.resetPositions`, threading the
per-team counters and zeroing every velocity. -/
def resetPlayersAux (cfg : GameConfig) : ℕ → ℕ → List Player → List Player
  | _, _, [] => []
  | redIdx, blueIdx, p :: rest =>
    match p.team with
    | Team.red =>
      { p with position := resetPosition cfg Team.red redIdx, velocity := ⟨0, 0⟩ } ::
        resetPlayersAux cfg (redIdx + 1) blueIdx rest
    | Team.blue =>
      { p with position := resetPosition cfg Team.blue blueIdx, velocity := ⟨0, 0⟩ } ::
        resetPlayersAux cfg redIdx (blueIdx + 1) rest

/-- `Game.resetPositions`: fresh centered ball, repositioned players. -/
def resetPositions (cfg : GameConfig) (st : GameState) : GameState :=
  { st with ball := createBall cfg, players := resetPlayersAux cfg 0 0 st.players }

/-- The local-player step of `Game.update`: `physics.updatePlayer` applied
to the player whose id is `localId`, if present (other entries of the map
are untouched). -/
def tickPlayers (cfg : GameConfig) (localId : String) (input : InputState)
    (st : GameState) : List Player :=
  st.players.map fun p => if p.id = localId then Physics.updatePlayer cfg p input else p

/-- The host's ball after `Game.update`'s `physics.updateBall` and the
`players.forEach` player-ball collision pass (which runs before the
player-player collision pass and mutates only the ball). -/
def tickBall (cfg : GameConfig) (localId : String) (input : InputState)
    (st : GameState) : Ball :=
  (tickPlayers cfg localId input st).foldl
    (fun b p => Physics.handlePlayerBallCollision cfg p b)
    (Physics.updateBall cfg st.ball)

/-- Inner loop of the pairwise collision pass: collide `p` against each
later player in order, threading the updates to `p`. -/
def collidePairs (cfg : GameConfig) : Player → List Player → Player × List Player
  | p, [] => (p, [])
  | p, q :: rest =>
    let pq := Physics.handlePlayerCollision cfg p q
    let r := collidePairs cfg pq.1 rest
    (r.1, pq.2 :: r.2)

/-- Recursion skeleton of the pairwise collision loops; the first argument
is structural-recursion fuel, instantiated with the list length (which
`collidePairs` preserves, so the `(0, _ :: _)` row is never reached). -/
def collideAllAux (cfg : GameConfig) : ℕ → List Player → List Player
  | _, [] => []
  | 0, l => l
  | n + 1, p :: rest =>
    let r := collidePairs cfg p rest
    r.1 :: collideAllAux cfg n r.2

/-- The nested `for i / for j > i` player-player collision loops of
`Game.update`. -/
def collideAll (cfg : GameConfig) (l : List Player) : List Player :=
  collideAllAux cfg l.length l

/-- `this.state.score[scorer]++` from `Game.update`. -/
def bumpScore : Team → Score → Score
  | Team.red, s => { s with red := s.red + 1 }
  | Team.blue, s => { s with blue := s.blue + 1 }

/-- `Game.update` (`src/game.ts`): the per-tick step.  Countdown > 0
freezes physics (the host's `sendGameState` broadcast has no local state
effect).  Otherwise the local player is integrated; the host additionally
integrates the ball, resolves player-ball then player-player collisions,
and on a goal bumps the scorer's count, resets positions and sets a
120-tick countdown. -/
def update (cfg : GameConfig) (isHost : Bool) (localId : String) (input : InputState)
    (st : GameState) : GameState :=
  if st.countdown > 0 then { st with countdown := st.countdown - 1 }
  else if isHost then
    let ps := collideAll cfg (tickPlayers cfg localId input st)
    let b := tickBall cfg localId input st
    match Physics.checkGoal cfg b with
    | some t =>
      { st with
        players := resetPlayersAux cfg 0 0 ps
        ball := createBall cfg
        score := bumpScore t st.score
        countdown := 120 }
    | none => { st with players := ps, ball := b }
  else { st with players := tickPlayers cfg localId input st }

/-- Iterated simulation ticks with a per-tick input stream. -/
def iterateGame (cfg : GameConfig) (isHost : Bool) (localId : String)
    (inputs : ℕ → InputState) (st : GameState) : ℕ → GameState
  | 0 => st
  | n + 1 => update cfg isHost localId (inputs n) (iterateGame cfg isHost localId inputs st n)

/-- Iterated `Physics.updatePlayer` with a per-tick input stream. -/
def iteratePlayer (cfg : GameConfig) (inputs : ℕ → InputState) (p : Player) : ℕ → Player
  | 0 => p
  | n + 1 => Physics.updatePlayer cfg (iteratePlayer cfg inputs p n) (inputs n)

/-- The payload of a `player-update` message
(`Network.sendPlayerUpdate` / `Game.handlePlayerUpdate`).  The handler
never reads the `name` field, so it is omitted. -/
structure PlayerUpdateData where
  id : String
  position : Vector2
  velocity : Vector2
  team : Team
  isKicking : Bool

/-- `Game.handlePlayerUpdate`: overwrite position/velocity/team/isKicking
of the matching player, unless the id is absent from the map or names the
local player. -/
def handlePlayerUpdate (localId : String) (st : GameState) (d : PlayerUpdateData) :
    GameState :=
  if (st.players.find? fun p => p.id == d.id).isSome ∧ d.id ≠ localId then
    { st with
      players := st.players.map fun p =>
        if p.id = d.id then
          { p with
            position := d.position
            velocity := d.velocity
            team := d.team
            isKicking := d.isKicking }
        else p }
  else st

end

end Game

namespace Network

/-- JS `String.prototype.trim`, on the character list. -/
def jsTrim (s : List Char) : List Char :=
  ((s.dropWhile Char.isWhitespace).reverse.dropWhile Char.isWhitespace).reverse

/-- JS `String.prototype.toUpperCase` on the ASCII room ids the game
uses. -/
def jsToUpper (s : List Char) : List Char := s.map Char.toUpper

/-- JS `String.prototype.replace` with a string pattern and empty
replacement: removes the first (case-sensitive) occurrence of `pat`. -/
def removeFirst (pat : List Char) : List Char → List Char
  | [] => []
  | c :: rest =>
    if pat.isPrefixOf (c :: rest) then (c :: rest).drop pat.length
    else c :: removeFirst pat rest

/-- The characters of `"HAX-"`. -/
def haxUpper : List Char := ['H', 'A', 'X', '-']

/-- The characters of `"hax-"`. -/
def haxLower : List Char := ['h', 'a', 'x', '-']

/-- The room-id normalization performed at the top of `Network.joinRoom`
(`src/network.ts`):
`roomId.toUpperCase().trim()`, then prepend `'hax-'` when the upper-cased
id does not start with `'HAX-'`, then
`'hax-' + normalizedRoomId.replace('HAX-', '')`.  The resulting id is the
one passed to `peer.connect`. -/
def normalizeRoomId (roomId : List Char) : List Char :=
  let upper := jsTrim (jsToUpper roomId)
  let withP := if haxUpper.isPrefixOf upper then upper else haxLower ++ upper
  haxLower ++ removeFirst haxUpper withP

end Network

/-! Concrete inputs used by the witness theorems below. -/

/-- A red player at `(100, 300)` with no cooldown. -/
def pC1 : Player := ⟨"p1", ⟨100, 300⟩, ⟨0, 0⟩, Team.red, "alice", false, 0⟩

/-- The same player with 5 frames of kick cooldown left. -/
def pC1cool : Player := ⟨"p1", ⟨100, 300⟩, ⟨0, 0⟩, Team.red, "alice", false, 5⟩

/-- A ball 10 units to the player's right, rolling at `(3, 0)`. -/
def bC1 : Ball := ⟨⟨110, 300⟩, ⟨3, 0⟩, 15⟩

/-- A player at the field center. -/
def pC3 : Player := ⟨"p3", ⟨500, 300⟩, ⟨0, 0⟩, Team.red, "carol", false, 0⟩

/-- An input stream with no keys pressed. -/
def idleInputs : ℕ → InputState := fun _ => ⟨false, false, false, false⟩

/-- A host state with no players and the ball inside the left goal mouth. -/
def stC4 : GameState := ⟨[], ⟨⟨10, 300⟩, ⟨0, 0⟩, 15⟩, ⟨2, 1⟩, true, 0⟩

/-- A two-player state during the kickoff countdown. -/
def stC5 : GameState :=
  ⟨[⟨"h", ⟨150, 250⟩, ⟨1, 0⟩, Team.red, "host", false, 4⟩,
    ⟨"g", ⟨850, 350⟩, ⟨0, 1⟩, Team.blue, "guest", true, 0⟩],
   ⟨⟨500, 300⟩, ⟨0, 0⟩, 15⟩, ⟨1, 0⟩, true, 120⟩

/-- A ball crossing the left boundary inside the goal band. -/
def bC6 : Ball := ⟨⟨10, 300⟩, ⟨0, 0⟩, 15⟩

/-- A ball at the same x but outside the goal band. -/
def bC6out : Ball := ⟨⟨10, 100⟩, ⟨0, 0⟩, 15⟩

/-- A stationary ball over the left boundary inside the goal band. -/
def bC7 : Ball := ⟨⟨10, 300⟩, ⟨0, 0⟩, 15⟩

/-- A stationary ball over the left boundary outside the goal band. -/
def bC7out : Ball := ⟨⟨10, 100⟩, ⟨0, 0⟩, 15⟩

/-- A kick-capable player for the extended-range comparison. -/
def pC8 : Player := ⟨"p8", ⟨100, 300⟩, ⟨0, 0⟩, Team.red, "hank", false, 0⟩

/-- A ball 10 units from `pC8`. -/
def bC8 : Ball := ⟨⟨110, 300⟩, ⟨0, 0⟩, 15⟩

/-- A player still on cooldown, for the extended-range witness. -/
def pC8w : Player := ⟨"p9", ⟨100, 300⟩, ⟨0, 0⟩, Team.blue, "ivy", false, 5⟩

/-- A ball 80 units from `pC8w`: beyond plain kick range (65), inside the
extended range (100). -/
def bC8w : Ball := ⟨⟨180, 300⟩, ⟨2, 1⟩, 15⟩

/-- The local player of the `player-update` witness state. -/
def pC9a : Player := ⟨"A", ⟨100, 300⟩, ⟨0, 0⟩, Team.red, "ann", false, 3⟩

/-- The remote player of the `player-update` witness state. -/
def pC9b : Player := ⟨"B", ⟨900, 300⟩, ⟨0, 0⟩, Team.blue, "bob", false, 7⟩

/-- A two-player state whose local player is `"A"`. -/
def stC9 : GameState := ⟨[pC9a, pC9b], ⟨⟨500, 300⟩, ⟨0, 0⟩, 15⟩, ⟨0, 0⟩, true, 0⟩

/-- A `player-update` payload addressed to the remote player `"B"`. -/
def dC9 : Game.PlayerUpdateData := ⟨"B", ⟨850, 275⟩, ⟨1, 2⟩, Team.red, true⟩

/-- A `player-update` payload addressed to the local player `"A"`. -/
def dC9local : Game.PlayerUpdateData := ⟨"A", ⟨1, 1⟩, ⟨1, 1⟩, Team.blue, true⟩

/-- Two players with exactly coincident centers. -/
def pC10a : Player := ⟨"x", ⟨50, 50⟩, ⟨1, 0⟩, Team.red, "xena", false, 0⟩

/-- The second coincident player. -/
def pC10b : Player := ⟨"y", ⟨50, 50⟩, ⟨-2, 3⟩, Team.blue, "yuri", false, 0⟩

/-- An overlapping player pair at rest (not approaching). -/
def pC10c : Player := ⟨"u", ⟨100, 100⟩, ⟨0, 0⟩, Team.red, "uma", false, 0⟩

/-- The second resting overlapping player. -/
def pC10d : Player := ⟨"v", ⟨110, 100⟩, ⟨0, 0⟩, Team.blue, "vic", false, 0⟩

/-!
## Theorems

Shared arithmetic facts about the vector operations, then one theorem per
claim (with a witness where the theorem carries hypotheses).
-/

/-- Magnitudes are square roots, hence nonnegative. -/
theorem magnitude_nonneg (v : Vector2) : 0 ≤ Physics.magnitude v :=
  Real.sqrt_nonneg _

/-- A magnitude vanishes exactly on the zero vector. -/
theorem magnitude_eq_zero_iff (v : Vector2) :
    Physics.magnitude v = 0 ↔ v.x = 0 ∧ v.y = 0 := by
  unfold Physics.magnitude
  rw [Real.sqrt_eq_zero']
  constructor
  · intro h
    constructor <;> nlinarith [mul_self_nonneg v.x, mul_self_nonneg v.y]
  · rintro ⟨hx, hy⟩
    rw [hx, hy]
    norm_num

/-- The magnitude of the zero vector. -/
theorem magnitude_zero : Physics.magnitude ⟨0, 0⟩ = 0 := by
  rw [magnitude_eq_zero_iff]
  exact ⟨rfl, rfl⟩

/-- The magnitude of an axis-aligned vector. -/
theorem magnitude_axis (a : ℝ) : Physics.magnitude ⟨a, 0⟩ = |a| := by
  unfold Physics.magnitude
  rw [show a * a + 0 * 0 = a * a by ring, Real.sqrt_mul_self_eq_abs]

/-- Normalizing a nonzero vector yields a unit vector. -/
theorem magnitude_normalize (v : Vector2) (h : Physics.magnitude v ≠ 0) :
    Physics.magnitude (Physics.normalize v) = 1 := by
  unfold Physics.normalize
  rw [if_neg h]
  have hs : 0 ≤ v.x * v.x + v.y * v.y := by
    nlinarith [mul_self_nonneg v.x, mul_self_nonneg v.y]
  have hm : Real.sqrt (v.x * v.x + v.y * v.y) * Real.sqrt (v.x * v.x + v.y * v.y) =
      v.x * v.x + v.y * v.y := Real.mul_self_sqrt hs
  have hmne : Real.sqrt (v.x * v.x + v.y * v.y) ≠ 0 := h
  unfold Physics.magnitude
  have hsne : v.x * v.x + v.y * v.y ≠ 0 := by
    intro h0
    exact hmne (by rw [h0, Real.sqrt_zero])
  have key : v.x / Real.sqrt (v.x * v.x + v.y * v.y) *
        (v.x / Real.sqrt (v.x * v.x + v.y * v.y)) +
      v.y / Real.sqrt (v.x * v.x + v.y * v.y) *
        (v.y / Real.sqrt (v.x * v.x + v.y * v.y)) = 1 := by
    rw [div_mul_div_comm, div_mul_div_comm, div_add_div_same, hm]
    exact div_self hsne
  rw [key, Real.sqrt_one]

/-- Magnitude of a scalar multiple. -/
theorem magnitude_multiply (v : Vector2) (s : ℝ) :
    Physics.magnitude (Physics.multiply v s) = |s| * Physics.magnitude v := by
  unfold Physics.magnitude Physics.multiply
  rw [show v.x * s * (v.x * s) + v.y * s * (v.y * s) =
        s * s * (v.x * v.x + v.y * v.y) by ring,
    Real.sqrt_mul (mul_self_nonneg s), Real.sqrt_mul_self_eq_abs]

/-- Distance is symmetric in its endpoints. -/
theorem magnitude_subtract_comm (a b : Vector2) :
    Physics.magnitude (Physics.subtract a b) = Physics.magnitude (Physics.subtract b a) := by
  unfold Physics.magnitude Physics.subtract
  congr 1
  ring

/-- Normalizing a positive x-axis vector. -/
theorem normalize_axis (a : ℝ) (h : 0 < a) :
    Physics.normalize ⟨a, 0⟩ = ⟨1, 0⟩ := by
  unfold Physics.normalize
  rw [magnitude_axis, abs_of_pos h, if_neg (ne_of_gt h)]
  congr 1
  · exact div_self (ne_of_gt h)
  · exact zero_div a

/-- Claim C1: `kick(player, ball)` returns `false` and changes nothing when
`kickCooldown > 0` or the player-ball distance is at least
`playerRadius + ballRadius + 25`; otherwise it returns `true`, adds an
impulse of magnitude exactly `kickForce` along the normalized player-to-ball
direction to the ball's velocity, sets `kickCooldown` to 20 and marks
`isKicking` true. -/
theorem C1_kick_characterization (p : Player) (b : Ball) :
    (p.kickCooldown > 0 ∨
        Physics.distance p.position b.position ≥ config.playerRadius + b.radius + 25 →
      Physics.kick config p b = (false, p, b)) ∧
    (p.kickCooldown ≤ 0 →
        Physics.distance p.position b.position < config.playerRadius + b.radius + 25 →
      Physics.kick config p b =
        (true,
         { p with kickCooldown := 20, isKicking := true },
         { b with velocity :=
             ⟨b.velocity.x +
                (Physics.normalize (Physics.subtract b.position p.position)).x *
                  config.kickForce,
              b.velocity.y +
                (Physics.normalize (Physics.subtract b.position p.position)).y *
                  config.kickForce⟩ })) ∧
    (0 < Physics.distance p.position b.position →
      Physics.magnitude
          (Physics.multiply (Physics.normalize (Physics.subtract b.position p.position))
            config.kickForce) = config.kickForce) := by
  refine ⟨?_, ?_, ?_⟩
  · intro h
    simp only [Physics.kick]
    rcases h with hc | hd
    · rw [if_pos hc]
    · by_cases hc : p.kickCooldown > 0
      · rw [if_pos hc]
      · rw [if_neg hc, if_neg (not_lt.mpr hd)]
  · intro hc hd
    simp only [Physics.kick]
    rw [if_neg (not_lt.mpr hc), if_pos hd]
  · intro h0
    have hne : Physics.magnitude (Physics.subtract b.position p.position) ≠ 0 := by
      have hd : Physics.distance p.position b.position ≠ 0 := ne_of_gt h0
      unfold Physics.distance at hd
      rwa [magnitude_subtract_comm] at hd
    rw [magnitude_multiply, magnitude_normalize _ hne, mul_one,
      abs_of_nonneg (by norm_num [config] : (0 : ℝ) ≤ config.kickForce)]

/-- Witness for C1: with 5 frames of cooldown the kick at distance 10 is
rejected unchanged; with no cooldown the same kick succeeds and adds the
full 15-unit impulse along the `(1, 0)` direction. -/
theorem C1_kick_witness :
    Physics.kick config pC1cool bC1 = (false, pC1cool, bC1) ∧
    Physics.kick config pC1 bC1 =
      (true, { pC1 with kickCooldown := 20, isKicking := true },
       { bC1 with velocity := ⟨18, 0⟩ }) := by
  constructor
  · exact (C1_kick_characterization pC1cool bC1).1 (Or.inl (by norm_num [pC1cool]))
  · have hsub : Physics.subtract pC1.position bC1.position = ⟨-10, 0⟩ := by
      unfold Physics.subtract pC1 bC1
      norm_num
    have hd : Physics.distance pC1.position bC1.position <
        config.playerRadius + bC1.radius + 25 := by
      unfold Physics.distance
      rw [hsub, magnitude_axis, abs_neg, abs_of_nonneg (by norm_num : (0 : ℝ) ≤ 10)]
      norm_num [config, bC1]
    have h := (C1_kick_characterization pC1 bC1).2.1 (by norm_num [pC1]) hd
    rw [h]
    have hn : Physics.normalize (Physics.subtract bC1.position pC1.position) = ⟨1, 0⟩ := by
      have hsub2 : Physics.subtract bC1.position pC1.position = ⟨10, 0⟩ := by
        unfold Physics.subtract pC1 bC1
        norm_num
      rw [hsub2]
      exact normalize_axis 10 (by norm_num)
    rw [hn]
    norm_num [config, bC1]

/-- Claim C2 (code bug): `joinRoom`'s normalization maps a prefixed id to
the canonical form, but doubles the prefix on an id entered without one:
`'abc123'` becomes `'hax-hax-ABC123'` rather than `'hax-ABC123'`, because
`normalizedRoomId.replace('HAX-', '')` is case-sensitive and never removes
the lowercase `'hax-'` that the previous line just prepended. -/
theorem C2_roomId_code_bug :
    Network.normalizeRoomId "hax-abc123".data = "hax-ABC123".data ∧
    Network.normalizeRoomId "abc123".data = "hax-hax-ABC123".data ∧
    Network.normalizeRoomId "abc123".data ≠ "hax-ABC123".data := by
  refine ⟨by decide, by decide, by decide⟩

/-- One tick of `updatePlayer` lands inside the clamped field box,
whatever the starting state and input: the final clamp forces it. -/
theorem updatePlayer_bounds_step (p : Player) (i : InputState) :
    config.playerRadius ≤ (Physics.updatePlayer config p i).position.x ∧
    (Physics.updatePlayer config p i).position.x ≤ config.fieldWidth - config.playerRadius ∧
    config.playerRadius ≤ (Physics.updatePlayer config p i).position.y ∧
    (Physics.updatePlayer config p i).position.y ≤ config.fieldHeight - config.playerRadius := by
  have hwx : config.playerRadius ≤ config.fieldWidth - config.playerRadius := by
    norm_num [config]
  have hwy : config.playerRadius ≤ config.fieldHeight - config.playerRadius := by
    norm_num [config]
  exact ⟨le_max_left _ _, max_le hwx (min_le_left _ _),
    le_max_left _ _, max_le hwy (min_le_left _ _)⟩

/-- Claim C3: starting from any in-bounds position, any number of
`updatePlayer` ticks under any input stream keeps the position inside
`[playerRadius, fieldWidth − playerRadius] × [playerRadius,
fieldHeight − playerRadius]`. -/
theorem C3_updatePlayer_bounded (p : Player) (inputs : ℕ → InputState) (n : ℕ)
    (hx1 : config.playerRadius ≤ p.position.x)
    (hx2 : p.position.x ≤ config.fieldWidth - config.playerRadius)
    (hy1 : config.playerRadius ≤ p.position.y)
    (hy2 : p.position.y ≤ config.fieldHeight - config.playerRadius) :
    config.playerRadius ≤ (Game.iteratePlayer config inputs p n).position.x ∧
    (Game.iteratePlayer config inputs p n).position.x ≤
      config.fieldWidth - config.playerRadius ∧
    config.playerRadius ≤ (Game.iteratePlayer config inputs p n).position.y ∧
    (Game.iteratePlayer config inputs p n).position.y ≤
      config.fieldHeight - config.playerRadius := by
  cases n with
  | zero => exact ⟨hx1, hx2, hy1, hy2⟩
  | succ m => exact updatePlayer_bounds_step (Game.iteratePlayer config inputs p m) (inputs m)

/-- Witness for C3: the centered player stays in bounds after a tick with
no keys pressed. -/
theorem C3_bounds_witness :
    config.playerRadius ≤ (Game.iteratePlayer config idleInputs pC3 1).position.x ∧
    (Game.iteratePlayer config idleInputs pC3 1).position.x ≤
      config.fieldWidth - config.playerRadius ∧
    config.playerRadius ≤ (Game.iteratePlayer config idleInputs pC3 1).position.y ∧
    (Game.iteratePlayer config idleInputs pC3 1).position.y ≤
      config.fieldHeight - config.playerRadius :=
  C3_updatePlayer_bounded pC3 idleInputs 1
    (by norm_num [pC3, config]) (by norm_num [pC3, config])
    (by norm_num [pC3, config]) (by norm_num [pC3, config])

/-- Claim C6: `checkGoal` returns `blue` exactly when the ball's leading
edge has crossed the left boundary inside the strict goal band, `red`
exactly when it has crossed the right boundary inside the band, and `none`
otherwise.  (The embedding is a pure function of the ball, so it cannot
mutate its argument and a repeated call trivially returns the same
result.)  The side condition `2·radius ≤ fieldWidth` rules out degenerate
balls wider than the field, for which the two crossings could overlap; the
program's only ball has radius 15. -/
theorem C6_checkGoal_iff (b : Ball) (hr : 2 * b.radius ≤ config.fieldWidth) :
    (Physics.checkGoal config b = some Team.blue ↔
      b.position.x - b.radius < 0 ∧
      Physics.goalTop config < b.position.y ∧ b.position.y < Physics.goalBottom config) ∧
    (Physics.checkGoal config b = some Team.red ↔
      b.position.x + b.radius > config.fieldWidth ∧
      Physics.goalTop config < b.position.y ∧ b.position.y < Physics.goalBottom config) ∧
    (Physics.checkGoal config b = none ↔
      ¬(b.position.x - b.radius < 0 ∧
        Physics.goalTop config < b.position.y ∧ b.position.y < Physics.goalBottom config) ∧
      ¬(b.position.x + b.radius > config.fieldWidth ∧
        Physics.goalTop config < b.position.y ∧ b.position.y < Physics.goalBottom config)) := by
  have hexcl : ¬(b.position.x - b.radius < 0 ∧ config.fieldWidth < b.position.x + b.radius) := by
    rintro ⟨hL, hR⟩
    linarith
  unfold Physics.checkGoal
  split_ifs with h1 h2
  · refine ⟨by simp [h1], ?_, ?_⟩
    · simp only [Option.some.injEq]
      constructor
      · intro h'
        cases h'
      · rintro ⟨hR, -⟩
        exact absurd ⟨h1.1, hR⟩ hexcl
    · constructor
      · intro h'
        cases h'
      · rintro ⟨hnb, -⟩
        exact absurd h1 hnb
  · refine ⟨?_, by simp [h2], ?_⟩
    · simp only [Option.some.injEq]
      constructor
      · intro h'
        cases h'
      · intro hb
        exact absurd hb h1
    · constructor
      · intro h'
        cases h'
      · rintro ⟨-, hnr⟩
        exact absurd h2 hnr
  · refine ⟨?_, ?_, iff_of_true rfl ⟨h1, h2⟩⟩
    · constructor
      · intro h'
        cases h'
      · intro hb
        exact absurd hb h1
    · constructor
      · intro h'
        cases h'
      · intro hrr
        exact absurd hrr h2

/-- Witness for C6: the goal-band ball at `(10, 300)` is a blue goal; the
same x at `y = 100`, outside the band, is no goal. -/
theorem C6_checkGoal_witness :
    Physics.checkGoal config bC6 = some Team.blue ∧
    Physics.checkGoal config bC6out = none := by
  constructor
  · exact ((C6_checkGoal_iff bC6 (by norm_num [bC6, config])).1).mpr
      (by norm_num [bC6, config, Physics.goalTop, Physics.goalBottom])
  · refine ((C6_checkGoal_iff bC6out (by norm_num [bC6out, config])).2.2).mpr ⟨?_, ?_⟩
    · rintro ⟨-, h2, -⟩
      norm_num [bC6out, config, Physics.goalTop, Physics.goalBottom] at h2
    · rintro ⟨-, h2, -⟩
      norm_num [bC6out, config, Physics.goalTop, Physics.goalBottom] at h2

/-- The top-wall block never touches the x components or the radius. -/
theorem wallTop_x (b : Ball) :
    (Physics.wallTop b).position.x = b.position.x ∧
    (Physics.wallTop b).velocity.x = b.velocity.x ∧
    (Physics.wallTop b).radius = b.radius := by
  unfold Physics.wallTop
  split_ifs <;> exact ⟨rfl, rfl, rfl⟩

/-- The bottom-wall block never touches the x components or the radius. -/
theorem wallBottom_x (cfg : GameConfig) (b : Ball) :
    (Physics.wallBottom cfg b).position.x = b.position.x ∧
    (Physics.wallBottom cfg b).velocity.x = b.velocity.x ∧
    (Physics.wallBottom cfg b).radius = b.radius := by
  unfold Physics.wallBottom
  split_ifs <;> exact ⟨rfl, rfl, rfl⟩

/-- The left-wall block never touches the y components or the radius. -/
theorem wallLeft_y (cfg : GameConfig) (b : Ball) :
    (Physics.wallLeft cfg b).position.y = b.position.y ∧
    (Physics.wallLeft cfg b).velocity.y = b.velocity.y ∧
    (Physics.wallLeft cfg b).radius = b.radius := by
  unfold Physics.wallLeft
  split_ifs <;> exact ⟨rfl, rfl, rfl⟩

/-- The right-wall block never touches the y components or the radius. -/
theorem wallRight_y (cfg : GameConfig) (b : Ball) :
    (Physics.wallRight cfg b).position.y = b.position.y ∧
    (Physics.wallRight cfg b).velocity.y = b.velocity.y ∧
    (Physics.wallRight cfg b).radius = b.radius := by
  unfold Physics.wallRight
  split_ifs <;> exact ⟨rfl, rfl, rfl⟩

/-- Left wall, over the boundary inside the goal band: no-op. -/
theorem wallLeft_in (cfg : GameConfig) (b : Ball)
    (h1 : b.position.x - b.radius < 0)
    (h2 : Physics.goalTop cfg < b.position.y ∧ b.position.y < Physics.goalBottom cfg) :
    Physics.wallLeft cfg b = b := by
  unfold Physics.wallLeft
  rw [if_pos h1, if_pos h2]

/-- Left wall, over the boundary outside the goal band: clamp and reflect. -/
theorem wallLeft_out (cfg : GameConfig) (b : Ball)
    (h1 : b.position.x - b.radius < 0)
    (h2 : ¬(Physics.goalTop cfg < b.position.y ∧ b.position.y < Physics.goalBottom cfg)) :
    Physics.wallLeft cfg b =
      { b with
        position := ⟨b.radius, b.position.y⟩
        velocity := ⟨b.velocity.x * (-0.8), b.velocity.y⟩ } := by
  unfold Physics.wallLeft
  rw [if_pos h1, if_neg h2]

/-- Left wall, inside the field: no-op. -/
theorem wallLeft_skip (cfg : GameConfig) (b : Ball)
    (h1 : ¬(b.position.x - b.radius < 0)) :
    Physics.wallLeft cfg b = b := by
  unfold Physics.wallLeft
  rw [if_neg h1]

/-- Right wall, over the boundary inside the goal band: no-op. -/
theorem wallRight_in (cfg : GameConfig) (b : Ball)
    (h1 : b.position.x + b.radius > cfg.fieldWidth)
    (h2 : Physics.goalTop cfg < b.position.y ∧ b.position.y < Physics.goalBottom cfg) :
    Physics.wallRight cfg b = b := by
  unfold Physics.wallRight
  rw [if_pos h1, if_pos h2]

/-- Right wall, over the boundary outside the goal band: clamp and reflect. -/
theorem wallRight_out (cfg : GameConfig) (b : Ball)
    (h1 : b.position.x + b.radius > cfg.fieldWidth)
    (h2 : ¬(Physics.goalTop cfg < b.position.y ∧ b.position.y < Physics.goalBottom cfg)) :
    Physics.wallRight cfg b =
      { b with
        position := ⟨cfg.fieldWidth - b.radius, b.position.y⟩
        velocity := ⟨b.velocity.x * (-0.8), b.velocity.y⟩ } := by
  unfold Physics.wallRight
  rw [if_pos h1, if_neg h2]

/-- Right wall, inside the field: no-op. -/
theorem wallRight_skip (cfg : GameConfig) (b : Ball)
    (h1 : ¬(b.position.x + b.radius > cfg.fieldWidth)) :
    Physics.wallRight cfg b = b := by
  unfold Physics.wallRight
  rw [if_neg h1]

/-- Top wall, over the boundary: clamp and reflect. -/
theorem wallTop_out (b : Ball) (h1 : b.position.y - b.radius < 0) :
    Physics.wallTop b =
      { b with
        position := ⟨b.position.x, b.radius⟩
        velocity := ⟨b.velocity.x, b.velocity.y * (-0.8)⟩ } := by
  unfold Physics.wallTop
  rw [if_pos h1]

/-- Top wall, inside the field: no-op. -/
theorem wallTop_skip (b : Ball) (h1 : ¬(b.position.y - b.radius < 0)) :
    Physics.wallTop b = b := by
  unfold Physics.wallTop
  rw [if_neg h1]

/-- Bottom wall, over the boundary: clamp and reflect. -/
theorem wallBottom_out (cfg : GameConfig) (b : Ball)
    (h1 : b.position.y + b.radius > cfg.fieldHeight) :
    Physics.wallBottom cfg b =
      { b with
        position := ⟨b.position.x, cfg.fieldHeight - b.radius⟩
        velocity := ⟨b.velocity.x, b.velocity.y * (-0.8)⟩ } := by
  unfold Physics.wallBottom
  rw [if_pos h1]

/-- Bottom wall, inside the field: no-op. -/
theorem wallBottom_skip (cfg : GameConfig) (b : Ball)
    (h1 : ¬(b.position.y + b.radius > cfg.fieldHeight)) :
    Physics.wallBottom cfg b = b := by
  unfold Physics.wallBottom
  rw [if_neg h1]

/-- Claim C7: after integration/friction/snap (`ballIntegrate`), a ball
over the left or right boundary is left entirely alone (no clamp, no
x-velocity change) when its y lies strictly inside the goal band, and is
clamped to the wall with `velocity.x × −0.8` when outside the band; the
top and bottom walls always clamp and reflect with the `−0.8` factor.
Side conditions `2·radius ≤ field` exclude balls larger than the field
(the program's ball has radius 15). -/
theorem C7_updateBall_walls (b : Ball)
    (hw : 2 * b.radius ≤ config.fieldWidth)
    (hh : 2 * b.radius ≤ config.fieldHeight) :
    ((Physics.ballIntegrate b).position.x - b.radius < 0 →
      ((Physics.goalTop config < (Physics.ballIntegrate b).position.y ∧
          (Physics.ballIntegrate b).position.y < Physics.goalBottom config →
        (Physics.updateBall config b).position.x = (Physics.ballIntegrate b).position.x ∧
        (Physics.updateBall config b).velocity.x = (Physics.ballIntegrate b).velocity.x) ∧
       (¬(Physics.goalTop config < (Physics.ballIntegrate b).position.y ∧
          (Physics.ballIntegrate b).position.y < Physics.goalBottom config) →
        (Physics.updateBall config b).position.x = b.radius ∧
        (Physics.updateBall config b).velocity.x =
          (Physics.ballIntegrate b).velocity.x * (-0.8)))) ∧
    ((Physics.ballIntegrate b).position.x + b.radius > config.fieldWidth →
      ((Physics.goalTop config < (Physics.ballIntegrate b).position.y ∧
          (Physics.ballIntegrate b).position.y < Physics.goalBottom config →
        (Physics.updateBall config b).position.x = (Physics.ballIntegrate b).position.x ∧
        (Physics.updateBall config b).velocity.x = (Physics.ballIntegrate b).velocity.x) ∧
       (¬(Physics.goalTop config < (Physics.ballIntegrate b).position.y ∧
          (Physics.ballIntegrate b).position.y < Physics.goalBottom config) →
        (Physics.updateBall config b).position.x = config.fieldWidth - b.radius ∧
        (Physics.updateBall config b).velocity.x =
          (Physics.ballIntegrate b).velocity.x * (-0.8)))) ∧
    ((Physics.ballIntegrate b).position.y - b.radius < 0 →
      (Physics.updateBall config b).position.y = b.radius ∧
      (Physics.updateBall config b).velocity.y =
        (Physics.ballIntegrate b).velocity.y * (-0.8)) ∧
    ((Physics.ballIntegrate b).position.y + b.radius > config.fieldHeight →
      (Physics.updateBall config b).position.y = config.fieldHeight - b.radius ∧
      (Physics.updateBall config b).velocity.y =
        (Physics.ballIntegrate b).velocity.y * (-0.8)) := by
  have hrad : (Physics.ballIntegrate b).radius = b.radius := rfl
  set B := Physics.ballIntegrate b with hBdef
  have hupd : Physics.updateBall config b =
      Physics.wallBottom config
        (Physics.wallTop (Physics.wallRight config (Physics.wallLeft config B))) := rfl
  rw [hupd]
  refine ⟨?_, ?_, ?_, ?_⟩
  · intro hL
    have hnR : ¬(B.position.x + B.radius > config.fieldWidth) := by
      rw [hrad]
      intro hc
      linarith
    constructor
    · intro hband
      rw [wallLeft_in config B (by rw [hrad]; exact hL) hband, wallRight_skip config B hnR]
      exact ⟨(wallBottom_x config _).1.trans (wallTop_x _).1,
        (wallBottom_x config _).2.1.trans (wallTop_x _).2.1⟩
    · intro hnband
      have e1 : Physics.wallLeft config B =
          { B with
            position := ⟨B.radius, B.position.y⟩
            velocity := ⟨B.velocity.x * (-0.8), B.velocity.y⟩ } :=
        wallLeft_out config B (by rw [hrad]; exact hL) hnband
      have e2 : Physics.wallRight config (Physics.wallLeft config B) =
          Physics.wallLeft config B := by
        apply wallRight_skip
        rw [e1]
        show ¬(B.radius + B.radius > config.fieldWidth)
        rw [hrad]
        linarith
      rw [e2, e1]
      constructor
      · exact ((wallBottom_x config _).1.trans (wallTop_x _).1).trans hrad
      · exact (wallBottom_x config _).2.1.trans (wallTop_x _).2.1
  · intro hRt
    have hnL : ¬(B.position.x - B.radius < 0) := by
      rw [hrad]
      intro hc
      linarith
    have e1 : Physics.wallLeft config B = B := wallLeft_skip config B hnL
    constructor
    · intro hband
      rw [e1, wallRight_in config B (by rw [hrad]; exact hRt) hband]
      exact ⟨(wallBottom_x config _).1.trans (wallTop_x _).1,
        (wallBottom_x config _).2.1.trans (wallTop_x _).2.1⟩
    · intro hnband
      have e2 : Physics.wallRight config B =
          { B with
            position := ⟨config.fieldWidth - B.radius, B.position.y⟩
            velocity := ⟨B.velocity.x * (-0.8), B.velocity.y⟩ } :=
        wallRight_out config B (by rw [hrad]; exact hRt) hnband
      rw [e1, e2]
      constructor
      · exact ((wallBottom_x config _).1.trans (wallTop_x _).1).trans
          (show config.fieldWidth - B.radius = config.fieldWidth - b.radius by rw [hrad])
      · exact (wallBottom_x config _).2.1.trans (wallTop_x _).2.1
  · intro hT
    have hCy : (Physics.wallRight config (Physics.wallLeft config B)).position.y =
        B.position.y := (wallRight_y config _).1.trans (wallLeft_y config B).1
    have hCvy : (Physics.wallRight config (Physics.wallLeft config B)).velocity.y =
        B.velocity.y := (wallRight_y config _).2.1.trans (wallLeft_y config B).2.1
    have hCr : (Physics.wallRight config (Physics.wallLeft config B)).radius = b.radius :=
      ((wallRight_y config _).2.2.trans (wallLeft_y config B).2.2).trans hrad
    have e3 : Physics.wallTop (Physics.wallRight config (Physics.wallLeft config B)) =
        { Physics.wallRight config (Physics.wallLeft config B) with
          position := ⟨(Physics.wallRight config (Physics.wallLeft config B)).position.x,
            (Physics.wallRight config (Physics.wallLeft config B)).radius⟩
          velocity := ⟨(Physics.wallRight config (Physics.wallLeft config B)).velocity.x,
            (Physics.wallRight config (Physics.wallLeft config B)).velocity.y * (-0.8)⟩ } :=
      wallTop_out _ (by rw [hCy, hCr]; exact hT)
    rw [e3]
    have e4 :
        Physics.wallBottom config
          { Physics.wallRight config (Physics.wallLeft config B) with
            position := ⟨(Physics.wallRight config (Physics.wallLeft config B)).position.x,
              (Physics.wallRight config (Physics.wallLeft config B)).radius⟩
            velocity := ⟨(Physics.wallRight config (Physics.wallLeft config B)).velocity.x,
              (Physics.wallRight config (Physics.wallLeft config B)).velocity.y * (-0.8)⟩ } =
          { Physics.wallRight config (Physics.wallLeft config B) with
            position := ⟨(Physics.wallRight config (Physics.wallLeft config B)).position.x,
              (Physics.wallRight config (Physics.wallLeft config B)).radius⟩
            velocity := ⟨(Physics.wallRight config (Physics.wallLeft config B)).velocity.x,
              (Physics.wallRight config (Physics.wallLeft config B)).velocity.y * (-0.8)⟩ } := by
      apply wallBottom_skip
      show ¬((Physics.wallRight config (Physics.wallLeft config B)).radius +
        (Physics.wallRight config (Physics.wallLeft config B)).radius > config.fieldHeight)
      rw [hCr]
      linarith
    rw [e4]
    exact ⟨hCr, congrArg (fun t => t * (-0.8)) hCvy⟩
  · intro hBo
    have hCy : (Physics.wallRight config (Physics.wallLeft config B)).position.y =
        B.position.y := (wallRight_y config _).1.trans (wallLeft_y config B).1
    have hCvy : (Physics.wallRight config (Physics.wallLeft config B)).velocity.y =
        B.velocity.y := (wallRight_y config _).2.1.trans (wallLeft_y config B).2.1
    have hCr : (Physics.wallRight config (Physics.wallLeft config B)).radius = b.radius :=
      ((wallRight_y config _).2.2.trans (wallLeft_y config B).2.2).trans hrad
    have e3 : Physics.wallTop (Physics.wallRight config (Physics.wallLeft config B)) =
        Physics.wallRight config (Physics.wallLeft config B) := by
      apply wallTop_skip
      rw [hCy, hCr]
      intro hc
      linarith
    rw [e3]
    have e4 : Physics.wallBottom config (Physics.wallRight config (Physics.wallLeft config B)) =
        { Physics.wallRight config (Physics.wallLeft config B) with
          position := ⟨(Physics.wallRight config (Physics.wallLeft config B)).position.x,
            config.fieldHeight - (Physics.wallRight config (Physics.wallLeft config B)).radius⟩
          velocity := ⟨(Physics.wallRight config (Physics.wallLeft config B)).velocity.x,
            (Physics.wallRight config (Physics.wallLeft config B)).velocity.y * (-0.8)⟩ } :=
      wallBottom_out config _ (by rw [hCy, hCr]; exact hBo)
    rw [e4]
    exact ⟨congrArg (fun t => config.fieldHeight - t) hCr,
      congrArg (fun t => t * (-0.8)) hCvy⟩

/-- Integrating a stationary ball changes nothing: the position gains zero
and the snapped velocity stays zero. -/
theorem ballIntegrate_still (b : Ball) (h : b.velocity = ⟨0, 0⟩) :
    Physics.ballIntegrate b = { b with velocity := ⟨0, 0⟩ } := by
  unfold Physics.ballIntegrate
  rw [h]
  norm_num

/-- Witness for C7: the stationary ball at `(10, 300)` (inside the band,
over the left boundary) is left untouched, while the one at `(10, 100)`
(outside the band) is clamped to `x = radius = 15` with reflected
(zero) x-velocity. -/
theorem C7_updateBall_witness :
    (Physics.updateBall config bC7).position.x = 10 ∧
    (Physics.updateBall config bC7).velocity.x = 0 ∧
    (Physics.updateBall config bC7out).position.x = 15 ∧
    (Physics.updateBall config bC7out).velocity.x = 0 := by
  have hB : Physics.ballIntegrate bC7 = bC7 := by
    rw [ballIntegrate_still bC7 rfl]
    rfl
  have hBout : Physics.ballIntegrate bC7out = bC7out := by
    rw [ballIntegrate_still bC7out rfl]
    rfl
  have h1 := (C7_updateBall_walls bC7 (by norm_num [bC7, config])
    (by norm_num [bC7, config])).1
  have h1' := (h1 (by rw [hB]; norm_num [bC7])).1
    (by rw [hB]; constructor <;> norm_num [bC7, config, Physics.goalTop, Physics.goalBottom])
  rw [hB] at h1'
  have h2 := (C7_updateBall_walls bC7out (by norm_num [bC7out, config])
    (by norm_num [bC7out, config])).1
  have h2' := (h2 (by rw [hBout]; norm_num [bC7out])).2
    (by
      rw [hBout]
      rintro ⟨hc, -⟩
      norm_num [bC7out, config, Physics.goalTop, Physics.goalBottom] at hc)
  rw [hBout] at h2'
  exact ⟨h1'.1.trans (by norm_num [bC7]), h1'.2.trans (by norm_num [bC7]),
    h2'.1.trans (by norm_num [bC7out]), h2'.2.trans (by norm_num [bC7out])⟩

/-- Counterexample for C8 as stated: at distance 10 with no cooldown —
conditions under which the claim's two exceptions (range tolerance and
cooldown gate) are both inactive, so the effects should be identical —
plain `kick` marks `isKicking` true while `kickWithExtendedRange` leaves
it false. -/
theorem C8_extended_kick_counterexample :
    pC8.kickCooldown = 0 ∧
    Physics.distance pC8.position bC8.position < config.playerRadius + bC8.radius + 25 ∧
    (Physics.kick config pC8 bC8).2.1.isKicking = true ∧
    (Physics.kickWithExtendedRange config pC8 bC8).2.1.isKicking = false := by
  have hsub : Physics.subtract pC8.position bC8.position = ⟨-10, 0⟩ := by
    unfold Physics.subtract pC8 bC8
    norm_num
  have hd : Physics.distance pC8.position bC8.position = 10 := by
    unfold Physics.distance
    rw [hsub, magnitude_axis, abs_neg, abs_of_nonneg (by norm_num : (0 : ℝ) ≤ 10)]
  refine ⟨rfl, ?_, ?_, ?_⟩
  · rw [hd]
    norm_num [config, bC8]
  · simp only [Physics.kick]
    rw [if_neg (by norm_num [pC8] : ¬(pC8.kickCooldown > 0)),
      if_pos (show Physics.distance pC8.position bC8.position <
        config.playerRadius + bC8.radius + 25 by rw [hd]; norm_num [config, bC8])]
  · simp only [Physics.kickWithExtendedRange]
    rw [if_pos (show Physics.distance pC8.position bC8.position <
      config.playerRadius + bC8.radius + 60 by rw [hd]; norm_num [config, bC8])]
    rfl

/-- Claim C8 (amended): `kickWithExtendedRange` succeeds exactly when the
distance is below `playerRadius + ballRadius + 60`, regardless of the
player's cooldown; on success it applies the same `kickForce` impulse as
`kick` and sets `kickCooldown := 20`, but — unlike `kick` — it does not
touch `isKicking`.  In the 35-unit band between the two ranges, plain
`kick` always returns false while the extended kick succeeds. -/
theorem C8_extended_kick_characterization (p : Player) (b : Ball) :
    (Physics.distance p.position b.position < config.playerRadius + b.radius + 60 →
      Physics.kickWithExtendedRange config p b =
        (true,
         { p with kickCooldown := 20 },
         { b with velocity :=
             ⟨b.velocity.x +
                (Physics.normalize (Physics.subtract b.position p.position)).x *
                  config.kickForce,
              b.velocity.y +
                (Physics.normalize (Physics.subtract b.position p.position)).y *
                  config.kickForce⟩ })) ∧
    (Physics.distance p.position b.position ≥ config.playerRadius + b.radius + 60 →
      Physics.kickWithExtendedRange config p b = (false, p, b)) ∧
    (config.playerRadius + b.radius + 25 ≤ Physics.distance p.position b.position →
      Physics.distance p.position b.position < config.playerRadius + b.radius + 60 →
      (Physics.kick config p b).1 = false ∧
      (Physics.kickWithExtendedRange config p b).1 = true) := by
  refine ⟨?_, ?_, ?_⟩
  · intro hd
    simp only [Physics.kickWithExtendedRange]
    rw [if_pos hd]
  · intro hd
    simp only [Physics.kickWithExtendedRange]
    rw [if_neg (not_lt.mpr hd)]
  · intro h1 h2
    constructor
    · simp only [Physics.kick]
      by_cases hc : p.kickCooldown > 0
      · rw [if_pos hc]
      · rw [if_neg hc, if_neg (not_lt.mpr h1)]
    · simp only [Physics.kickWithExtendedRange]
      rw [if_pos h2]

/-- Witness for C8: at distance 80 — beyond the plain kick range 65 but
inside the extended range 100 — and with 5 frames of cooldown, the
extended kick fires and sets the cooldown to 20 while plain `kick`
reports false. -/
theorem C8_extended_kick_witness :
    (Physics.kick config pC8w bC8w).1 = false ∧
    (Physics.kickWithExtendedRange config pC8w bC8w).1 = true ∧
    (Physics.kickWithExtendedRange config pC8w bC8w).2.1.kickCooldown = 20 := by
  have hsub : Physics.subtract pC8w.position bC8w.position = ⟨-80, 0⟩ := by
    unfold Physics.subtract pC8w bC8w
    norm_num
  have hd : Physics.distance pC8w.position bC8w.position = 80 := by
    unfold Physics.distance
    rw [hsub, magnitude_axis, abs_neg, abs_of_nonneg (by norm_num : (0 : ℝ) ≤ 80)]
  have h3 := (C8_extended_kick_characterization pC8w bC8w).2.2
    (by rw [hd]; norm_num [config, bC8w]) (by rw [hd]; norm_num [config, bC8w])
  have h1 := (C8_extended_kick_characterization pC8w bC8w).1
    (by rw [hd]; norm_num [config, bC8w])
  refine ⟨h3.1, h3.2, ?_⟩
  rw [h1]

/-- Claim C10: `handlePlayerCollision` is total (a plain function here);
when the two centers exactly coincide the `dist > 0` guard makes it leave
both players untouched, so the collision normal is never computed from a
zero vector; and the velocity impulse fires only for approaching pairs:
whenever the relative velocity along the normal is not positive, both
velocities are unchanged. -/
theorem C10_playerCollision_safety (p1 p2 : Player) :
    (Physics.distance p1.position p2.position = 0 →
      Physics.handlePlayerCollision config p1 p2 = (p1, p2)) ∧
    (Physics.dot (Physics.subtract p1.velocity p2.velocity)
        (Physics.normalize (Physics.subtract p2.position p1.position)) ≤ 0 →
      (Physics.handlePlayerCollision config p1 p2).1.velocity = p1.velocity ∧
      (Physics.handlePlayerCollision config p1 p2).2.velocity = p2.velocity) := by
  constructor
  · intro h0
    simp only [Physics.handlePlayerCollision]
    rw [if_neg]
    rintro ⟨-, hgt⟩
    rw [h0] at hgt
    exact lt_irrefl 0 hgt
  · intro hv
    simp only [Physics.handlePlayerCollision]
    split_ifs with h1 h2
    · exact absurd h2 (not_lt.mpr hv)
    · exact ⟨rfl, rfl⟩
    · exact ⟨rfl, rfl⟩

/-- Witness for C10: coincident players pass through unchanged; a resting
overlapping pair (relative velocity zero, hence not approaching) keeps
both velocities. -/
theorem C10_playerCollision_witness :
    Physics.handlePlayerCollision config pC10a pC10b = (pC10a, pC10b) ∧
    (Physics.handlePlayerCollision config pC10c pC10d).1.velocity = pC10c.velocity ∧
    (Physics.handlePlayerCollision config pC10c pC10d).2.velocity = pC10d.velocity := by
  constructor
  · apply (C10_playerCollision_safety pC10a pC10b).1
    have hsub : Physics.subtract pC10a.position pC10b.position = ⟨0, 0⟩ := by
      unfold Physics.subtract pC10a pC10b
      norm_num
    unfold Physics.distance
    rw [hsub, magnitude_zero]
  · apply (C10_playerCollision_safety pC10c pC10d).2
    have hsubv : Physics.subtract pC10c.velocity pC10d.velocity = ⟨0, 0⟩ := by
      unfold Physics.subtract pC10c pC10d
      norm_num
    rw [hsubv]
    unfold Physics.dot
    norm_num

/-- Claim C5: on a tick with `countdown > 0`, `update` decrements the
countdown by exactly one and performs no physics: every player (position,
velocity, cooldown), the ball, the score and the playing flag are
untouched (the host's state broadcast has no local effect). -/
theorem C5_countdown_freeze (isHost : Bool) (localId : String) (input : InputState)
    (st : GameState) (h : st.countdown > 0) :
    Game.update config isHost localId input st = { st with countdown := st.countdown - 1 } ∧
    (Game.update config isHost localId input st).countdown + 1 = st.countdown := by
  constructor
  · simp only [Game.update]
    rw [if_pos h]
  · simp only [Game.update]
    rw [if_pos h]
    show st.countdown - 1 + 1 = st.countdown
    omega

/-- Witness for C5: a mid-countdown two-player state ticks from 120 to 119
with everything else intact. -/
theorem C5_countdown_witness :
    Game.update config true "h" ⟨true, false, false, true⟩ stC5 =
      { stC5 with countdown := 119 } ∧
    (Game.update config true "h" ⟨true, false, false, true⟩ stC5).countdown + 1 =
      stC5.countdown := by
  have h := C5_countdown_freeze true "h" ⟨true, false, false, true⟩ stC5
    (by norm_num [stC5])
  refine ⟨?_, h.2⟩
  rw [h.1]
  rfl

/-- Claim C9: an inbound `player-update` whose id names the local player
or matches nobody leaves the whole state unchanged; otherwise exactly the
matching player's position/velocity/team/isKicking are overwritten — its
`kickCooldown` and `name` survive — while every other player, the ball,
the score, the countdown and the playing flag are untouched. -/
theorem C9_handlePlayerUpdate_effect (localId : String) (st : GameState)
    (d : Game.PlayerUpdateData) :
    ((st.players.find? fun p => p.id == d.id) = none ∨ d.id = localId →
      Game.handlePlayerUpdate localId st d = st) ∧
    (∀ q, (st.players.find? fun p => p.id == d.id) = some q → d.id ≠ localId →
      (Game.handlePlayerUpdate localId st d).ball = st.ball ∧
      (Game.handlePlayerUpdate localId st d).score = st.score ∧
      (Game.handlePlayerUpdate localId st d).countdown = st.countdown ∧
      (Game.handlePlayerUpdate localId st d).isPlaying = st.isPlaying ∧
      (Game.handlePlayerUpdate localId st d).players.length = st.players.length ∧
      ∀ (i : ℕ) (p : Player), st.players[i]? = some p →
        (p.id ≠ d.id → (Game.handlePlayerUpdate localId st d).players[i]? = some p) ∧
        (p.id = d.id → (Game.handlePlayerUpdate localId st d).players[i]? =
          some { p with
                 position := d.position
                 velocity := d.velocity
                 team := d.team
                 isKicking := d.isKicking })) := by
  constructor
  · intro h
    unfold Game.handlePlayerUpdate
    rw [if_neg]
    rintro ⟨hs, hne⟩
    rcases h with h1 | h2
    · rw [h1] at hs
      exact absurd hs (by simp)
    · exact hne h2
  · intro q hq hne
    have hcond : (st.players.find? fun p => p.id == d.id).isSome = true ∧ d.id ≠ localId := by
      rw [hq]
      exact ⟨rfl, hne⟩
    have hres : Game.handlePlayerUpdate localId st d =
        { st with
          players := st.players.map fun p =>
            if p.id = d.id then
              { p with
                position := d.position
                velocity := d.velocity
                team := d.team
                isKicking := d.isKicking }
            else p } := by
      unfold Game.handlePlayerUpdate
      rw [if_pos hcond]
    rw [hres]
    refine ⟨rfl, rfl, rfl, rfl, by simp, ?_⟩
    intro i p hp
    constructor
    · intro hpne
      simp only [List.getElem?_map, hp, Option.map_some']
      rw [if_neg hpne]
    · intro hpe
      simp only [List.getElem?_map, hp, Option.map_some']
      rw [if_pos hpe]

/-- Witness for C9: in the two-player state, an update addressed to the
local id `"A"` is a no-op, and an update addressed to the remote `"B"`
rewrites only that entry (its cooldown surviving) while ball, score and
the other player stay put. -/
theorem C9_handlePlayerUpdate_witness :
    Game.handlePlayerUpdate "A" stC9 dC9local = stC9 ∧
    (Game.handlePlayerUpdate "A" stC9 dC9).ball = stC9.ball ∧
    (Game.handlePlayerUpdate "A" stC9 dC9).score = stC9.score ∧
    (Game.handlePlayerUpdate "A" stC9 dC9).players[0]? = some pC9a ∧
    (Game.handlePlayerUpdate "A" stC9 dC9).players[1]? =
      some { pC9b with
             position := dC9.position
             velocity := dC9.velocity
             team := dC9.team
             isKicking := dC9.isKicking } := by
  have hfind : (stC9.players.find? fun p => p.id == dC9.id) = some pC9b := rfl
  have h := (C9_handlePlayerUpdate_effect "A" stC9 dC9).2 pC9b hfind (by decide)
  refine ⟨(C9_handlePlayerUpdate_effect "A" stC9 dC9local).1 (Or.inr rfl),
    h.1, h.2.1, ?_, ?_⟩
  · exact (h.2.2.2.2.2 0 pC9a rfl).1 (by decide)
  · exact (h.2.2.2.2.2 1 pC9b rfl).2 rfl

/-- A single `update` tick never decreases either score, in any role. -/
theorem update_score_mono (isHost : Bool) (localId : String) (input : InputState)
    (st : GameState) :
    st.score.red ≤ (Game.update config isHost localId input st).score.red ∧
    st.score.blue ≤ (Game.update config isHost localId input st).score.blue := by
  simp only [Game.update]
  split_ifs with h1 h2
  · exact ⟨le_refl _, le_refl _⟩
  · cases hg : Physics.checkGoal config (Game.tickBall config localId input st) with
    | none =>
      exact ⟨le_refl _, le_refl _⟩
    | some t =>
      cases t with
      | red => exact ⟨Nat.le_succ _, le_refl _⟩
      | blue => exact ⟨le_refl _, Nat.le_succ _⟩
  · exact ⟨le_refl _, le_refl _⟩

/-- Claim C4: across any sequence of ticks the score is monotonically
non-decreasing; on a host tick with `countdown = 0` where `checkGoal`
reports a scorer, that tick bumps exactly the scoring team's count by one,
replaces the ball by the centered zero-velocity `createBall` and sets the
countdown to 120 — and since `checkGoal` of the reset ball is `none` and
the following ticks are frozen with their scores unchanged, the same goal
cannot re-trigger. -/
theorem C4_goal_scoring (isHost : Bool) (localId : String) (inputs : ℕ → InputState)
    (input : InputState) (st : GameState) :
    (∀ n : ℕ,
      st.score.red ≤ (Game.iterateGame config isHost localId inputs st n).score.red ∧
      st.score.blue ≤ (Game.iterateGame config isHost localId inputs st n).score.blue) ∧
    (st.countdown = 0 →
      ∀ t, Physics.checkGoal config (Game.tickBall config localId input st) = some t →
        ((t = Team.red →
            (Game.update config true localId input st).score.red = st.score.red + 1 ∧
            (Game.update config true localId input st).score.blue = st.score.blue) ∧
         (t = Team.blue →
            (Game.update config true localId input st).score.blue = st.score.blue + 1 ∧
            (Game.update config true localId input st).score.red = st.score.red)) ∧
        (Game.update config true localId input st).ball = Game.createBall config ∧
        (Game.update config true localId input st).countdown = 120) ∧
    Physics.checkGoal config (Game.createBall config) = none ∧
    (∀ st2 : GameState, st2.countdown > 0 →
      (Game.update config isHost localId input st2).score = st2.score) := by
  refine ⟨?_, ?_, ?_, ?_⟩
  · intro n
    induction n with
    | zero => exact ⟨le_refl _, le_refl _⟩
    | succ m ih =>
      have hstep := update_score_mono isHost localId (inputs m)
        (Game.iterateGame config isHost localId inputs st m)
      exact ⟨ih.1.trans hstep.1, ih.2.trans hstep.2⟩
  · intro hc t hg
    have hne : ¬(st.countdown > 0) := by
      rw [hc]
      exact lt_irrefl 0
    simp only [Game.update]
    rw [if_neg hne, hg]
    refine ⟨⟨?_, ?_⟩, rfl, rfl⟩
    · intro ht
      subst ht
      exact ⟨rfl, rfl⟩
    · intro ht
      subst ht
      exact ⟨rfl, rfl⟩
  · unfold Physics.checkGoal
    split_ifs with h1 h2
    · exfalso
      obtain ⟨ha, -⟩ := h1
      norm_num [Game.createBall, config] at ha
    · exfalso
      obtain ⟨ha, -⟩ := h2
      norm_num [Game.createBall, config] at ha
    · rfl
  · intro st2 h
    simp only [Game.update]
    rw [if_pos h]

/-- Witness for C4: in the empty-player host state with the ball inside
the left goal mouth, the tick bumps blue's score from 1 to 2, recenters
the ball and starts the 120-tick freeze. -/
theorem C4_goal_witness :
    (Game.update config true "h" (idleInputs 0) stC4).score.blue = stC4.score.blue + 1 ∧
    (Game.update config true "h" (idleInputs 0) stC4).score.red = stC4.score.red ∧
    (Game.update config true "h" (idleInputs 0) stC4).ball = Game.createBall config ∧
    (Game.update config true "h" (idleInputs 0) stC4).countdown = 120 := by
  have hint : Physics.ballIntegrate stC4.ball = stC4.ball := by
    rw [ballIntegrate_still stC4.ball rfl]
    rfl
  have hup : Physics.updateBall config stC4.ball = stC4.ball := by
    unfold Physics.updateBall
    rw [hint,
      wallLeft_in config stC4.ball (by norm_num [stC4])
        (by
          constructor <;>
            norm_num [stC4, config, Physics.goalTop, Physics.goalBottom]),
      wallRight_skip config stC4.ball (by norm_num [stC4, config]),
      wallTop_skip stC4.ball (by norm_num [stC4]),
      wallBottom_skip config stC4.ball (by norm_num [stC4, config])]
  have htb : Game.tickBall config "h" (idleInputs 0) stC4 = stC4.ball := hup
  have hg : Physics.checkGoal config (Game.tickBall config "h" (idleInputs 0) stC4) =
      some Team.blue := by
    rw [htb]
    unfold Physics.checkGoal
    rw [if_pos]
    refine ⟨by norm_num [stC4], ?_, ?_⟩ <;>
      norm_num [stC4, config, Physics.goalTop, Physics.goalBottom]
  have h := (C4_goal_scoring true "h" idleInputs (idleInputs 0) stC4).2.1 rfl Team.blue hg
  exact ⟨(h.1.2 rfl).1, (h.1.2 rfl).2, h.2.1, h.2.2⟩

end Haxball
